import Mathlib

/-
  Verification of the tentacle stream multiplexer core against its
  natural-language specification.

  Shallow embedding of:
  - src/yamux/src/control.rs   (Control handle: open_stream, close,
    add_stream, close_oldest_stream, get_streams_num)
  - src/yamux/src/framed_stream.rs  (FramedStream, FSState)
  - src/src/service/event.rs   (Priority)

  The control-handle operations are embedded as pure functions of their
  environment (whether the mpsc send succeeded, and what - if anything -
  arrived on the oneshot reply channel), paired with the list of channel
  interactions the operation performs, in source order.
-/

namespace Tentacle

/-- Modelled from the spec: the error type (src/yamux/src/error.rs is not in
the source tree). Section 7 of the spec names four error classes:
connection-fatal, stream-local reset, capacity/admission, and shutdown; the
control handle surfaces the shutdown one as SessionShutdown. -/
inductive Error where
  | SessionShutdown
  | StreamReset
  | CapacityExceeded
  | ConnectionFatal
deriving DecidableEq

/-- Frame types, from the spec wire layout: Data, WindowUpdate, Ping, GoAway
(src/yamux/src/frame.rs is not in the source tree). -/
inductive FrameType where
  | Data
  | WindowUpdate
  | Ping
  | GoAway
deriving DecidableEq

/-- Frame flags, from the spec wire layout: SYN, ACK, FIN, RST. -/
inductive Flag where
  | SYN
  | ACK
  | FIN
  | RST
deriving DecidableEq

/-- Modelled from the spec: a wire frame (src/yamux/src/frame.rs is not in the
source tree): stream id, type, flags, 32-bit length/value field, payload. -/
structure Frame where
  stream_id : Nat
  ty : FrameType
  flags : List Flag
  length : Nat
  payload : List Nat
deriving DecidableEq

/-- Modelled from the spec: the frame codec (src/yamux/src/frame.rs is not in
the source tree) carries one relevant configuration value, the maximum
decodable frame size. FrameCodec::default() starts from some default value;
its builder method max_frame_size replaces that value. The default is
immaterial here because FramedStream::new always overrides it. -/
structure FrameCodec where
  max_frame_size_cfg : Nat
deriving DecidableEq

def FrameCodec.default : FrameCodec :=
  { max_frame_size_cfg := 0 }

def FrameCodec.max_frame_size (c : FrameCodec) (sz : Nat) : FrameCodec :=
  { c with max_frame_size_cfg := sz }

/-- tokio_util::codec::Framed pairs the raw io object with its codec;
Framed::new(raw, codec) stores both. -/
structure Framed (T : Type) where
  io : T
  codec : FrameCodec

def Framed.new (T : Type) (io : T) (codec : FrameCodec) : Framed T :=
  { io := io, codec := codec }

/-- The per-stream state type, from src/yamux/src/framed_stream.rs lines
28-37: exactly these seven constructors, in source order. -/
inductive FSState where
  | Established
  | RemoteClosed
  | RemoteClosedLocalClosing
  | LocalClosed
  | LocalClosing
  | LocalClosingHalf
  | Closed
deriving DecidableEq, Fintype

/-- The Rust source identifier of each FSState constructor. -/
def FSState.name : FSState → String
  | .Established => "Established"
  | .RemoteClosed => "RemoteClosed"
  | .RemoteClosedLocalClosing => "RemoteClosedLocalClosing"
  | .LocalClosed => "LocalClosed"
  | .LocalClosing => "LocalClosing"
  | .LocalClosingHalf => "LocalClosingHalf"
  | .Closed => "Closed"

/-- FramedStream, from src/yamux/src/framed_stream.rs lines 5-9: state,
pending_frame (an Option, so it holds at most one frame), and the framed
codec-wrapped io. -/
structure FramedStream (T : Type) where
  state : FSState
  pending_frame : Option Frame
  inner : Framed T

/-- FramedStream::new, from src/yamux/src/framed_stream.rs lines 15-25:
wraps the raw stream in a Framed with FrameCodec::default() whose
max_frame_size is set to max_stream_window_size, state Established,
no pending frame. -/
def FramedStream.new (T : Type) (raw_stream : T) (max_stream_window_size : Nat) :
    FramedStream T :=
  { inner := Framed.new T raw_stream
      (FrameCodec.max_frame_size FrameCodec.default max_stream_window_size)
    state := FSState.Established
    pending_frame := none }

/-- Number of frames currently held in a stream's pending slot. -/
def pendingCount (T : Type) (fs : FramedStream T) : Nat :=
  match fs.pending_frame with
  | none => 0
  | some _ => 1

/-- Priority, from src/src/service/event.rs lines 320-325: High or Normal. -/
inductive Priority where
  | High
  | Normal
deriving DecidableEq, Fintype

/-- Priority::is_high, from src/src/service/event.rs lines 328-333. -/
def Priority.is_high : Priority → Bool
  | .High => true
  | .Normal => false

/-- The command variants of src/yamux/src/control.rs lines 8-14, by tag
(the oneshot reply senders and the raw socket payload are modelled in the
operations' environments instead). -/
inductive CommandTag where
  | OpenStream
  | Shutdown
  | AddStream
  | CloseOldestStream
  | GetStreamsNum
deriving DecidableEq

/-- One channel interaction performed by a control-handle operation:
either an attempt to send a command on the session's mpsc channel, or an
await on a oneshot reply channel. -/
inductive Interaction where
  | sendCmd (c : CommandTag)
  | awaitReply
deriving DecidableEq

namespace Control

/-- Control::open_stream, from src/yamux/src/control.rs lines 26-33.
Environment: sendOk is whether the mpsc send succeeded (it fails exactly
when the command channel is closed); reply is what arrived on the oneshot
channel, none meaning the loop dropped the sender before answering
(Canceled). A failed send short-circuits with SessionShutdown; a dropped
reply maps to SessionShutdown; an answered reply is returned as is. -/
def open_stream (H : Type) (sendOk : Bool) (reply : Option (Except Error H)) :
    Except Error H × List Interaction :=
  if sendOk then
    match reply with
    | none => (Except.error Error.SessionShutdown,
        [Interaction.sendCmd CommandTag.OpenStream, Interaction.awaitReply])
    | some r => (r,
        [Interaction.sendCmd CommandTag.OpenStream, Interaction.awaitReply])
  else
    (Except.error Error.SessionShutdown, [Interaction.sendCmd CommandTag.OpenStream])

/-- Control::close, from src/yamux/src/control.rs lines 36-43. If the
channel is already closed it returns at once; otherwise it sends Shutdown
and awaits the reply, discarding both results (no error path exists: the
return type is unit). -/
def close (isClosed : Bool) (sendOk : Bool) (reply : Option Unit) :
    Unit × List Interaction :=
  if isClosed then ((), [])
  else ((), [Interaction.sendCmd CommandTag.Shutdown, Interaction.awaitReply])

/-- Control::add_stream, from src/yamux/src/control.rs lines 45-51: send
AddStream(raw_socket); a failed send is SessionShutdown, a successful send
is Ok(()) with no reply channel created and nothing awaited. -/
def add_stream (T : Type) (raw_socket : T) (sendOk : Bool) :
    Except Error Unit × List Interaction :=
  if sendOk then (Except.ok (), [Interaction.sendCmd CommandTag.AddStream])
  else (Except.error Error.SessionShutdown, [Interaction.sendCmd CommandTag.AddStream])

/-- Control::close_oldest_stream, from src/yamux/src/control.rs lines
53-59: send CloseOldestStream; a failed send is SessionShutdown, a
successful send is Ok(()) with nothing awaited. -/
def close_oldest_stream (sendOk : Bool) :
    Except Error Unit × List Interaction :=
  if sendOk then (Except.ok (), [Interaction.sendCmd CommandTag.CloseOldestStream])
  else (Except.error Error.SessionShutdown,
    [Interaction.sendCmd CommandTag.CloseOldestStream])

/-- Control::get_streams_num, from src/yamux/src/control.rs lines 61-68:
send GetStreamsNum(tx); a failed send is SessionShutdown; then the oneshot
reply is returned, a dropped reply mapped to SessionShutdown. -/
def get_streams_num (sendOk : Bool) (reply : Option Nat) :
    Except Error Nat × List Interaction :=
  if sendOk then
    match reply with
    | none => (Except.error Error.SessionShutdown,
        [Interaction.sendCmd CommandTag.GetStreamsNum, Interaction.awaitReply])
    | some n => (Except.ok n,
        [Interaction.sendCmd CommandTag.GetStreamsNum, Interaction.awaitReply])
  else
    (Except.error Error.SessionShutdown,
      [Interaction.sendCmd CommandTag.GetStreamsNum])

end Control

/-- Modelled from the spec: the session loop (src/yamux/src/session.rs is not
in the source tree) answers GetStreamsNum with the current count of
non-Closed streams. -/
def streamsNum (T : Type) (streams : List (FramedStream T)) : Nat :=
  (streams.filter (fun fs => fs.state != FSState.Closed)).length

/-- Modelled from the spec: the session loop (src/yamux/src/session.rs is not
in the source tree) handles AddStream by registering the pre-established raw
connection directly as a new stream, via FramedStream::new, emitting no
frames (in particular no SYN handshake) for it. Returns the updated stream
table and the list of frames emitted while handling the command. -/
def handleAddStream (T : Type) (streams : List (FramedStream T)) (raw : T) (w : Nat) :
    List (FramedStream T) × List Frame :=
  (streams ++ [FramedStream.new T raw w], [])

end Tentacle

namespace Tentacle

/-- Claim C1: for each control-handle operation other than close -
open_stream, add_stream, close_oldest_stream, get_streams_num - a closed
command channel (failed send) yields Error::SessionShutdown, and, for the
operations that await a oneshot reply, a reply channel dropped before an
answer arrives also yields Error::SessionShutdown; the error value is the
same for all four operations. -/
theorem control_nonclose_ops_shutdown_uniform :
    (∀ (H : Type) (r : Option (Except Error H)),
      (Control.open_stream H false r).1 = Except.error Error.SessionShutdown) ∧
    (∀ (H : Type),
      (Control.open_stream H true none).1 = Except.error Error.SessionShutdown) ∧
    (∀ (T : Type) (raw : T),
      (Control.add_stream T raw false).1 = Except.error Error.SessionShutdown) ∧
    ((Control.close_oldest_stream false).1 = Except.error Error.SessionShutdown) ∧
    (∀ r : Option Nat,
      (Control.get_streams_num false r).1 = Except.error Error.SessionShutdown) ∧
    ((Control.get_streams_num true none).1 = Except.error Error.SessionShutdown) :=
  ⟨fun _ _ => rfl, fun _ => rfl, fun _ _ => rfl, rfl, fun _ => rfl, rfl⟩

/-- Claim C2: Control::close never surfaces an error (its result is unit in
every environment); when the channel is already closed it performs no channel
interaction at all (returns immediately without sending); otherwise its
entire outcome is independent of whether the send succeeded and of whether a
reply ever arrived (both are ignored). -/
theorem control_close_never_fails :
    (∀ (c s : Bool) (r : Option Unit), (Control.close c s r).1 = ()) ∧
    (∀ (s : Bool) (r : Option Unit), (Control.close true s r).2 = []) ∧
    (∀ (s₁ s₂ : Bool) (r₁ r₂ : Option Unit),
      Control.close false s₁ r₁ = Control.close false s₂ r₂) :=
  ⟨fun _ _ _ => rfl, fun _ _ => rfl, fun _ _ _ _ => rfl⟩

/-- Claim C3: the per-stream state type FSState has exactly seven values,
and every stream state is one of Established, RemoteClosed,
RemoteClosedLocalClosing, LocalClosed, LocalClosing, LocalClosingHalf,
Closed; each of the seven is representable (they are distinct constructors
counted by the cardinality). -/
theorem fsstate_exactly_seven :
    Fintype.card FSState = 7 ∧
    ∀ s : FSState, s = FSState.Established ∨ s = FSState.RemoteClosed ∨
      s = FSState.RemoteClosedLocalClosing ∨ s = FSState.LocalClosed ∨
      s = FSState.LocalClosing ∨ s = FSState.LocalClosingHalf ∨
      s = FSState.Closed := by
  refine ⟨by decide, ?_⟩
  intro s
  cases s <;> simp

/-- Claim C4 counterexample: no representable stream state is named
RemoteClosedLocalClosingHalf - the filter of the full (finite) state type by
that source name is empty, refuting the claim that such a state exists. -/
theorem fsstate_no_remote_closed_local_closing_half :
    ((Finset.univ : Finset FSState).filter
      (fun s => FSState.name s = "RemoteClosedLocalClosingHalf")).card = 0 := by
  decide

/-- Claim C4 (amended): the state meaning both FIN directions resolved with
the local FIN sent and the remote FIN also seen is named LocalClosingHalf in
the source, not RemoteClosedLocalClosingHalf: exactly one representable
state bears the name LocalClosingHalf, and none bears the name
RemoteClosedLocalClosingHalf. -/
theorem fsstate_local_closing_half_representable :
    ((Finset.univ : Finset FSState).filter
      (fun s => FSState.name s = "LocalClosingHalf")).card = 1 ∧
    ((Finset.univ : Finset FSState).filter
      (fun s => FSState.name s = "RemoteClosedLocalClosingHalf")).card = 0 := by
  constructor <;> decide

/-- Claim C5: the GetStreamsNum command is answered with the (non-negative,
Nat-valued) count of non-Closed streams, which never exceeds the table size;
when the loop processes the command the caller receives exactly that count,
and in every environment (send failed, reply dropped, or reply delivered)
the caller receives either that count or Error::SessionShutdown, never
anything else. -/
theorem get_streams_num_count_or_shutdown (T : Type)
    (streams : List (FramedStream T)) (sendOk processed : Bool) :
    ((Control.get_streams_num true (some (streamsNum T streams))).1
        = Except.ok (streamsNum T streams)) ∧
    ((Control.get_streams_num sendOk
        (if sendOk && processed then some (streamsNum T streams) else none)).1
          = Except.ok (streamsNum T streams) ∨
      (Control.get_streams_num sendOk
        (if sendOk && processed then some (streamsNum T streams) else none)).1
          = Except.error Error.SessionShutdown) ∧
    streamsNum T streams ≤ streams.length := by
  refine ⟨rfl, ?_, ?_⟩
  · cases sendOk <;> cases processed <;> simp [Control.get_streams_num]
  · exact List.length_filter_le _ _

/-- Claim C6: a stream registered via AddStream is admitted directly via
FramedStream::new in state Established with an empty pending-frame slot, the
stream table is extended by exactly that stream, and handling the command
emits no frames at all - in particular no frame carrying the SYN flag, so no
SYN/ACK handshake is performed for it. -/
theorem add_stream_established_no_syn (T : Type)
    (streams : List (FramedStream T)) (raw : T) (w : Nat) :
    (FramedStream.new T raw w).state = FSState.Established ∧
    (FramedStream.new T raw w).pending_frame = none ∧
    (handleAddStream T streams raw w).1 = streams ++ [FramedStream.new T raw w] ∧
    (handleAddStream T streams raw w).2.filter
      (fun f => f.flags.contains Flag.SYN) = [] :=
  ⟨rfl, rfl, rfl, rfl⟩

/-- Claim C7: the pending-frame slot of every stream holds at most one frame
at any time (it is an Option, so its occupancy is bounded by one for every
reachable and indeed every representable stream value), and a freshly
constructed stream holds none. -/
theorem pending_frame_at_most_one (T : Type) (fs : FramedStream T)
    (raw : T) (w : Nat) :
    pendingCount T fs ≤ 1 ∧ pendingCount T (FramedStream.new T raw w) = 0 := by
  constructor
  · cases h : fs.pending_frame <;> simp [pendingCount, h]
  · rfl

/-- Claim C8: the priority type has exactly the two values High and Normal,
and is_high evaluates to true exactly on High and to false exactly on
Normal. -/
theorem priority_two_values_is_high (p : Priority) :
    Fintype.card Priority = 2 ∧
    (p = Priority.High ∨ p = Priority.Normal) ∧
    Priority.is_high Priority.High = true ∧
    Priority.is_high Priority.Normal = false ∧
    Priority.is_high p = decide (p = Priority.High) := by
  cases p <;> exact ⟨by decide, by simp, rfl, rfl, by decide⟩

/-- Claim C9: add_stream and close_oldest_stream return Ok(()) as soon as
the send on the command channel succeeds, and in no environment do they
await any reply (their interaction traces never contain awaitReply), so an
Ok result carries no confirmation from the session loop. -/
theorem add_close_ok_on_enqueue_without_reply (T : Type) (raw : T) (b : Bool) :
    (Control.add_stream T raw true).1 = Except.ok () ∧
    (Control.close_oldest_stream true).1 = Except.ok () ∧
    (Control.add_stream T raw b).2.contains Interaction.awaitReply = false ∧
    (Control.close_oldest_stream b).2.contains Interaction.awaitReply = false := by
  cases b <;> exact ⟨rfl, rfl, rfl, rfl⟩

/-- Claim C10: FramedStream::new configures its codec's maximum frame size
to be exactly the max_stream_window_size argument, so the maximum decodable
frame size of the constructed stream equals its window-size argument. -/
theorem new_codec_max_frame_size_eq_window (T : Type) (raw : T) (w : Nat) :
    ((FramedStream.new T raw w).inner.codec.max_frame_size_cfg = w) := rfl

end Tentacle
